import Mathlib

/-!
Shallow embedding of `src/main.py` (a Qt/PySide6 image mirror & mask-editing
tool) and proofs about its interactive behaviour.

Modelling conventions:
* ARGB pixels are a `Color` record of four `Nat` channel values.
* `QImage`/`QPixmap` buffers are `Bitmap`/`Pixmap`: a width, a height, and a
  total pixel function; only coordinates inside the bounds are meaningful.
* The view transform of `QGraphicsView` is scale + translation only (the code
  never shears or rotates); scroll-bar offsets are folded into the translation
  components.  `QTransform.scale`/`translate` prepend their operation, so
  `scale z` multiplies the scale components and `translate d` adds
  `scale * d` to the translation.  Python floats are modelled as exact
  rationals (e.g. `1.2` as `6/5`).
* Python `int(...)` truncation toward zero is `ratTrunc`.
* The rasterised filled circle of `QPainter.drawEllipse (x-r) (y-r) (2r) (2r)`
  is abstracted by the decidable predicate `inBrushDisc`; the erase and the
  paint stroke in `apply_brush` issue the identical `drawEllipse` call, so
  both use the same predicate, which is all the proofs rely on.
-/

namespace MirrorTool

/-- An ARGB colour, one `Nat` per channel, as stored in a
`QImage.Format_ARGB32` pixel. -/
structure Color where
  r : Nat
  g : Nat
  b : Nat
  a : Nat
deriving DecidableEq, Repr

/-- Fully opaque black, `QColor(0,0,0,255)` — the overlay fill colour and the
paint-brush colour in `load_interactive_image` / `apply_brush`. -/
def opaqueBlack : Color := ⟨0, 0, 0, 255⟩

/-- The fully transparent pixel produced by `QPainter.CompositionMode_Clear`. -/
def transparentColor : Color := ⟨0, 0, 0, 0⟩

/-- A pixel buffer (`QImage` with `Format_ARGB32`): dimensions and a pixel
function; pixels outside the bounds are irrelevant. -/
structure Bitmap where
  width : Nat
  height : Nat
  pix : Nat → Nat → Color

/-- A decoded image (`QPixmap`) as loaded by `on_open_image`. -/
structure Pixmap where
  width : Nat
  height : Nat
  pix : Nat → Nat → Color

/-- The tool mode of `MyGraphicsView.tool`: the strings `"none"`, `"erase"`,
`"paint"` of the source. -/
inductive Tool where
  | none
  | erase
  | paint
deriving DecidableEq, Repr

/-- The pointer cursor set on the view: `Qt.ArrowCursor`, or the circular
brush glyph of `update_cursor` with its on-screen pixel radius. -/
inductive CursorShape where
  | arrow
  | circle (screenRadius : Nat)
deriving DecidableEq, Repr

/-- The view transform (`QTransform` restricted to scale + translation, which
is all `main.py` ever produces); scroll offsets are folded into `dx`, `dy`.
A scene point `(px, py)` maps to the view point
`(m11 * px + dx, m22 * py + dy)`. -/
structure Transform where
  m11 : ℚ
  m22 : ℚ
  dx : ℚ
  dy : ℚ
deriving DecidableEq, Repr

/-- The identity transform (fresh `QGraphicsView`). -/
def idTransform : Transform := ⟨1, 1, 0, 0⟩

/-- Apply a transform to a scene point, yielding a view point. -/
def applyTransform (t : Transform) (p : ℚ × ℚ) : ℚ × ℚ :=
  (t.m11 * p.1 + t.dx, t.m22 * p.2 + t.dy)

/-- `QGraphicsView.mapToScene`: the inverse of `applyTransform` (total via
rational division; the scale components are nonzero in every reachable
state). -/
def mapToScene (t : Transform) (p : ℚ × ℚ) : ℚ × ℚ :=
  ((p.1 - t.dx) / t.m11, (p.2 - t.dy) / t.m22)

/-- `QGraphicsView.scale z z`: `QTransform.scale` prepends, so the scale
components are multiplied and the translation is untouched. -/
def scaleTransform (t : Transform) (z : ℚ) : Transform :=
  ⟨t.m11 * z, t.m22 * z, t.dx, t.dy⟩

/-- `QGraphicsView.translate d1 d2`: `QTransform.translate` prepends, so the
translation gains `scale * d`. -/
def translateTransform (t : Transform) (d1 d2 : ℚ) : Transform :=
  ⟨t.m11, t.m22, t.dx + t.m11 * d1, t.dy + t.m22 * d2⟩

/-- Python `int(q)`: truncation toward zero. -/
def ratTrunc (q : ℚ) : Int :=
  if 0 ≤ q then ⌊q⌋ else -⌊-q⌋

/-- Membership of the pixel `(px, py)` in the rasterised filled circle that
`painter.drawEllipse (x - r) (y - r) (r * 2) (r * 2)` covers (centre
`(x, y)`, radius `r`).  `apply_brush` issues this same call for both erase and
paint, so both strokes touch exactly this pixel set. -/
def inBrushDisc (x y : Int) (r : Nat) (px py : Nat) : Bool :=
  ((px : Int) - x) ^ 2 + ((py : Int) - y) ^ 2 ≤ (r : Int) ^ 2

/-- The colour a brush stroke leaves at a covered pixel: erase uses
`CompositionMode_Clear` (fully transparent), paint uses
`CompositionMode_Source` with `QColor(0,0,0,255)` (opaque black).
`apply_brush` is only ever invoked with a brush tool by the event handlers;
with tool `none` the pixel is left as-is. -/
def brushColor (tool : Tool) (old : Color) : Color :=
  match tool with
  | .none => old
  | .erase => transparentColor
  | .paint => opaqueBlack

/-- The bitmap-level effect of the `drawEllipse` call in `apply_brush`:
every in-bounds pixel of the disc of radius `r` about `(x, y)` is composited
with the tool's mode; pixels outside the bitmap are clipped by the bitmap's
own bounds. -/
def applyBrushOn (tool : Tool) (x y : Int) (r : Nat) (img : Bitmap) : Bitmap :=
  { width := img.width
    height := img.height
    pix := fun px py =>
      if px < img.width ∧ py < img.height ∧ inBrushDisc x y r px py = true then
        brushColor tool (img.pix px py)
      else
        img.pix px py }

/-- The per-view state of `MyGraphicsView`: tool mode, brush radius, view
transform, the optional overlay (`overlay_image` and `overlay_item` are both
`None` until `set_overlay` sets them together, so they are one optional
field), the cursor shape, and whether `ScrollHandDrag` is active. -/
structure ViewState where
  tool : Tool
  brushRadius : Nat
  transform : Transform
  overlay : Option Bitmap
  cursor : CursorShape
  dragHand : Bool

/-- `MyGraphicsView.__init__`: tool `"none"`, brush radius 20, no overlay,
`ScrollHandDrag`, identity transform, arrow cursor. -/
def initView : ViewState :=
  { tool := .none, brushRadius := 20, transform := idTransform,
    overlay := Option.none, cursor := .arrow, dragHand := true }

/-- `MyGraphicsView.set_overlay`. -/
def setOverlay (v : ViewState) (img : Bitmap) : ViewState :=
  { v with overlay := some img }

/-- The zoom factor of `update_cursor`: the average of the transform's x and y
scale components `(m11 + m22) / 2`. -/
def avgScale (t : Transform) : ℚ :=
  (t.m11 + t.m22) / 2

/-- The on-screen glyph radius computed by `update_cursor`:
`max(1, int(brush_radius * scale_factor))`. -/
def screenRadius (radius : Nat) (t : Transform) : Nat :=
  (max 1 (ratTrunc ((radius : ℚ) * avgScale t))).toNat

/-- `MyGraphicsView.update_cursor`: with a brush tool active the cursor
becomes the circular glyph of radius `screenRadius`; otherwise the arrow. -/
def updateCursor (v : ViewState) : ViewState :=
  if v.tool = Tool.erase ∨ v.tool = Tool.paint then
    { v with cursor := .circle (screenRadius v.brushRadius v.transform) }
  else
    { v with cursor := .arrow }

/-- `MyGraphicsView.set_tool`: store the tool; `"none"` restores hand-drag and
the arrow cursor, a brush tool disables dragging and recomputes the glyph. -/
def setTool (v : ViewState) (t : Tool) : ViewState :=
  if t = Tool.none then
    { v with tool := t, dragHand := true, cursor := .arrow }
  else
    updateCursor { v with tool := t, dragHand := false }

/-- `MyGraphicsView.set_brush_radius`: store the radius and recompute the
glyph when a brush tool is active. -/
def setBrushRadius (v : ViewState) (radius : Nat) : ViewState :=
  let v1 := { v with brushRadius := radius }
  if v1.tool = Tool.erase ∨ v1.tool = Tool.paint then updateCursor v1 else v1

/-- `QPixmap.scaled size KeepAspectRatio`: the dimensions shrink or grow by
the smaller of the two axis ratios (resampled pixel content is not modelled;
no claim inspects it). -/
def scaledKeepAspect (pm : Pixmap) (w h : Nat) : Pixmap :=
  if pm.width = 0 ∨ pm.height = 0 then pm
  else
    let sc : ℚ := min ((w : ℚ) / pm.width) ((h : ℚ) / pm.height)
    ⟨(⌊(pm.width : ℚ) * sc⌋).toNat, (⌊(pm.height : ℚ) * sc⌋).toNat, pm.pix⟩

/-- The whole-application state of `MainWindow` (plus its owned view and the
two mirror windows).  `mirrorAttached` / `staticMirrorAttached` model the
mirror windows' `main_window` references being non-`None`. -/
structure MainState where
  view : ViewState
  eraseChecked : Bool
  paintChecked : Bool
  sliderValue : Nat
  basePixmap : Option Pixmap
  overlayItemPixmap : Option Bitmap
  previewPixmap : Option Pixmap
  previewTransform : Transform
  staticLabelPixmap : Option Pixmap
  staticMirrorPixmap : Option Pixmap
  mirrorSnapshot : Option ViewState
  timerActive : Bool
  currentTab : Nat
  mainVisible : Bool
  mirrorAttached : Bool
  staticMirrorAttached : Bool

/-- `MainWindow.__init__`: both tool buttons unchecked, slider at 20, no
images loaded anywhere, interaction timer stopped, Interactive tab (index 0)
current, both mirror windows attached, main window shown. -/
def initState : MainState :=
  { view := initView, eraseChecked := false, paintChecked := false,
    sliderValue := 20, basePixmap := Option.none,
    overlayItemPixmap := Option.none, previewPixmap := Option.none,
    previewTransform := idTransform, staticLabelPixmap := Option.none,
    staticMirrorPixmap := Option.none, mirrorSnapshot := Option.none,
    timerActive := false, currentTab := 0, mainVisible := true,
    mirrorAttached := true, staticMirrorAttached := true }

/-- `MainWindow.on_interaction_start`: start the mirror-refresh timer if it
is not already running. -/
def onInteractionStart (s : MainState) : MainState :=
  if s.timerActive then s else { s with timerActive := true }

/-- `MainWindow.on_interaction_end`: stop the mirror-refresh timer if it is
running. -/
def onInteractionEnd (s : MainState) : MainState :=
  if s.timerActive then { s with timerActive := false } else s

/-- `MainWindow.sync_preview_transform`: copy the primary view's transform
(and folded-in scroll offsets) onto the preview view. -/
def syncPreviewTransform (s : MainState) : MainState :=
  { s with previewTransform := s.view.transform }

/-- `MainWindow.update_mirror`: grab a snapshot of the primary view for the
mirror window, re-sync the preview transform, and recompute the brush glyph
when a brush tool is active. -/
def updateMirror (s : MainState) : MainState :=
  let s1 := { s with mirrorSnapshot := some s.view }
  let s2 := syncPreviewTransform s1
  if s2.view.tool = Tool.erase ∨ s2.view.tool = Tool.paint then
    { s2 with view := updateCursor s2.view }
  else
    s2

/-- `MyGraphicsView.apply_brush` (lifted to the whole state so that the
`overlay_item.setPixmap` at its end is visible): a no-op without an overlay;
otherwise map the view position to scene coordinates (the overlay item sits
untransformed at the scene origin, so `mapFromScene` is the identity),
truncate to integers, composite the brush disc onto the overlay image, and
push the result into the overlay item's pixmap. -/
def applyBrush (s : MainState) (viewPos : ℚ × ℚ) : MainState :=
  match s.view.overlay with
  | Option.none => s
  | some img =>
      let scenePoint := mapToScene s.view.transform viewPos
      let x := ratTrunc scenePoint.1
      let y := ratTrunc scenePoint.2
      let img2 := applyBrushOn s.view.tool x y s.view.brushRadius img
      { s with view := { s.view with overlay := some img2 },
               overlayItemPixmap := some img2 }

/-- `MyGraphicsView.wheelEvent`: ignored unless the tool is `"none"`;
otherwise signal interaction-start (starting the timer), scale the transform
by `1.2` per notch in (`angleDelta.y > 0`) or `1/1.2` out, translate so the
scene point under the pointer stays put, and run the mirror update. -/
def wheelEvent (s : MainState) (pointer : ℚ × ℚ) (angleDeltaY : Int) :
    MainState :=
  if s.view.tool ≠ Tool.none then s
  else
    let s1 := onInteractionStart s
    let t := s1.view.transform
    let oldPos := mapToScene t pointer
    let z : ℚ := if 0 < angleDeltaY then 6 / 5 else 5 / 6
    let t1 := scaleTransform t z
    let newPos := mapToScene t1 pointer
    let t2 := translateTransform t1 (newPos.1 - oldPos.1) (newPos.2 - oldPos.2)
    updateMirror { s1 with view := { s1.view with transform := t2 } }

/-- `MyGraphicsView.mousePressEvent` for the left button: with a brush tool,
signal interaction-start, apply the brush, and update the mirror; otherwise
just signal interaction-start (the superclass then hand-drags). -/
def mousePressEvent (s : MainState) (pos : ℚ × ℚ) : MainState :=
  if s.view.tool = Tool.erase ∨ s.view.tool = Tool.paint then
    updateMirror (applyBrush (onInteractionStart s) pos)
  else
    onInteractionStart s

/-- `MyGraphicsView.mouseReleaseEvent` for the left button: both branches
update the mirror and then signal interaction-end (stopping the timer). -/
def mouseReleaseEvent (s : MainState) : MainState :=
  onInteractionEnd (updateMirror s)

/-- `MainWindow.on_erase_clicked`, called by Qt with the button's new checked
state after the click toggled it. -/
def onEraseClicked (s : MainState) (checked : Bool) : MainState :=
  if checked then
    { s with paintChecked := false, view := setTool s.view Tool.erase }
  else if s.paintChecked then s
  else { s with view := setTool s.view Tool.none }

/-- `MainWindow.on_paint_clicked`, called by Qt with the button's new checked
state after the click toggled it. -/
def onPaintClicked (s : MainState) (checked : Bool) : MainState :=
  if checked then
    { s with eraseChecked := false, view := setTool s.view Tool.paint }
  else if s.eraseChecked then s
  else { s with view := setTool s.view Tool.none }

/-- A user click on the checkable Erase button: Qt first toggles the checked
state, then emits `clicked(checked)` into `on_erase_clicked`
(`setChecked` from code does not re-emit `clicked`). -/
def clickErase (s : MainState) : MainState :=
  let c := !s.eraseChecked
  onEraseClicked { s with eraseChecked := c } c

/-- A user click on the checkable Paint button, symmetric to `clickErase`. -/
def clickPaint (s : MainState) : MainState :=
  let c := !s.paintChecked
  onPaintClicked { s with paintChecked := c } c

/-- `MainWindow.on_brush_slider_changed`. -/
def onBrushSliderChanged (s : MainState) (val : Nat) : MainState :=
  { s with sliderValue := val, view := setBrushRadius s.view val }

/-- `MainWindow.load_interactive_image`: replace the base pixmap, fit the
view to the scene (`fitT` is the transform `fitInView` chooses for this
pixmap and viewport), build a fresh fully-opaque-black overlay of the
pixmap's dimensions, install it in the overlay item and the view, mirror the
pixmap into the preview and copy the view transform there, uncheck both tool
buttons, reset the tool to `"none"`, and refresh the mirror. -/
def loadInteractiveImage (s : MainState) (pm : Pixmap) (fitT : Transform) :
    MainState :=
  let overlayImg : Bitmap := ⟨pm.width, pm.height, fun _ _ => opaqueBlack⟩
  let v1 := { s.view with transform := fitT }
  let v2 := setOverlay v1 overlayImg
  let v3 := setTool v2 Tool.none
  updateMirror
    { s with view := v3, basePixmap := some pm,
             overlayItemPixmap := some overlayImg,
             previewPixmap := some pm, previewTransform := fitT,
             eraseChecked := false, paintChecked := false }

/-- `MainWindow.load_static_image`: scale the pixmap into the static label
(current label size `w × h`, aspect ratio kept) and hand the original to the
static mirror window. -/
def loadStaticImage (s : MainState) (pm : Pixmap) (w h : Nat) : MainState :=
  { s with staticLabelPixmap := some (scaledKeepAspect pm w h),
           staticMirrorPixmap := some pm }

/-- `MainWindow.on_open_image`: `path` is the file-dialog result (empty on
cancel), `decode` models `QPixmap(path)` with `Option.none` for a null
pixmap; a successful decode routes to the load path of the current tab. -/
def onOpenImage (s : MainState) (path : String)
    (decode : String → Option Pixmap) (fitT : Transform) (w h : Nat) :
    MainState :=
  if path = "" then s
  else
    match decode path with
    | Option.none => s
    | some pm =>
        if s.currentTab = 0 then loadInteractiveImage s pm fitT
        else loadStaticImage s pm w h

/-- `MirrorWindow.closeEvent`: the close request is accepted exactly when the
`main_window` reference is gone or the main window is no longer visible. -/
def mirrorWindowCloseAccepted (attached mainVisible : Bool) : Bool :=
  !(attached && mainVisible)

/-- `StaticMirrorWindow.closeEvent`: same policy as `MirrorWindow`. -/
def staticMirrorWindowCloseAccepted (attached mainVisible : Bool) : Bool :=
  !(attached && mainVisible)

/-- `MainWindow.closeEvent`: null both mirror windows' `main_window`
references, close them (now accepted), and let the main window close. -/
def mainCloseEvent (s : MainState) : MainState :=
  { s with mirrorAttached := false, staticMirrorAttached := false,
           mainVisible := false }

/-- The pointer/scroll events delivered to `MyGraphicsView` that the
interaction-timer claim ranges over. -/
inductive UiEvent where
  | wheel (pointer : ℚ × ℚ) (angleDeltaY : Int)
  | leftPress (pointer : ℚ × ℚ)
  | leftRelease

/-- An application state instrumented with the ghost flag `interactionOpen`:
true exactly inside a press-to-release span (the spec's "interaction"). -/
structure InstrumentedState where
  app : MainState
  interactionOpen : Bool

/-- One input event: dispatch to the embedded handler and track the ghost
press-to-release flag. -/
def stepUi (ts : InstrumentedState) : UiEvent → InstrumentedState
  | .wheel p dy => { ts with app := wheelEvent ts.app p dy }
  | .leftPress p => { app := mousePressEvent ts.app p, interactionOpen := true }
  | .leftRelease => { app := mouseReleaseEvent ts.app, interactionOpen := false }

/-- Run an event sequence from the freshly started application. -/
def runUi (evs : List UiEvent) : InstrumentedState :=
  evs.foldl stepUi { app := initState, interactionOpen := false }

/-- The two toolbar button events of the tool-mode state machine. -/
inductive ToolClick where
  | eraseClick
  | paintClick

/-- One toolbar click. -/
def stepTool (s : MainState) : ToolClick → MainState
  | .eraseClick => clickErase s
  | .paintClick => clickPaint s

/-- Run a sequence of toolbar clicks from the freshly started application. -/
def runToolClicks (evs : List ToolClick) : MainState :=
  evs.foldl stepTool initState

/-- CLAIM C2: for every overlay bitmap, brush position and brush radius,
applying an erase stroke and then a paint stroke at the same position with the
same radius restores full opacity (opaque black, alpha 255) at every pixel the
strokes touched, modulo clipping at the bitmap's edges. -/
theorem erase_then_paint_restores_opacity (img : Bitmap) (x y : Int) (r : Nat)
    (px py : Nat) (hpx : px < img.width) (hpy : py < img.height)
    (hdisc : inBrushDisc x y r px py = true) :
    (applyBrushOn Tool.paint x y r (applyBrushOn Tool.erase x y r img)).pix px py
      = opaqueBlack
    ∧ (applyBrushOn Tool.paint x y r (applyBrushOn Tool.erase x y r img)).width
      = img.width
    ∧ (applyBrushOn Tool.paint x y r (applyBrushOn Tool.erase x y r img)).height
      = img.height := by
  refine ⟨?_, rfl, rfl⟩
  simp [applyBrushOn, brushColor, hpx, hpy, hdisc]

/-- Witness for C2: on a concrete 4×4 bitmap, erasing then painting at centre
`(1,1)` with radius `1` leaves pixel `(1,1)` opaque black. -/
theorem erase_then_paint_restores_opacity_witness :
    (applyBrushOn Tool.paint 1 1 1
        (applyBrushOn Tool.erase 1 1 1 ⟨4, 4, fun _ _ => opaqueBlack⟩)).pix 1 1
      = opaqueBlack := by
  exact (erase_then_paint_restores_opacity ⟨4, 4, fun _ _ => opaqueBlack⟩ 1 1 1 1 1
    (by decide) (by decide) (by decide)).1

/-- Helper: `update_cursor` only changes the cursor, never the transform. -/
theorem updateCursor_transform (v : ViewState) :
    (updateCursor v).transform = v.transform := by
  unfold updateCursor; split <;> rfl

/-- Helper: `update_cursor` never changes the tool. -/
theorem updateCursor_tool (v : ViewState) : (updateCursor v).tool = v.tool := by
  unfold updateCursor; split <;> rfl

/-- Helper: `on_interaction_start` only touches the timer. -/
theorem onInteractionStart_view (s : MainState) :
    (onInteractionStart s).view = s.view := by
  unfold onInteractionStart; split <;> rfl

/-- Helper: `update_mirror` never changes the view transform. -/
theorem updateMirror_view_transform (s : MainState) :
    (updateMirror s).view.transform = s.view.transform := by
  simp only [updateMirror, syncPreviewTransform]
  split
  · exact updateCursor_transform _
  · rfl

/-- Helper: after scaling the transform, translating by the difference of the
pointer's scene positions maps the old scene position back to the pointer —
the zoom-to-cursor recipe of `wheelEvent`. -/
theorem wheelZoomTransform_anchor (t : Transform) (z : ℚ) (p : ℚ × ℚ)
    (h11 : t.m11 ≠ 0) (h22 : t.m22 ≠ 0) (hz : z ≠ 0) :
    applyTransform
      (translateTransform (scaleTransform t z)
        ((mapToScene (scaleTransform t z) p).1 - (mapToScene t p).1)
        ((mapToScene (scaleTransform t z) p).2 - (mapToScene t p).2))
      (mapToScene t p) = p := by
  obtain ⟨m11, m22, dx0, dy0⟩ := t
  simp only [applyTransform, mapToScene, scaleTransform, translateTransform]
    at h11 h22 ⊢
  refine Prod.ext ?_ ?_ <;> field_simp <;> ring

/-- Helper: a click on Erase keeps the two tool buttons mutually unchecked. -/
theorem clickErase_not_both (s : MainState)
    (h : (s.eraseChecked && s.paintChecked) = false) :
    ((clickErase s).eraseChecked && (clickErase s).paintChecked) = false := by
  cases he : s.eraseChecked
  · simp [clickErase, onEraseClicked, he]
  · simp [clickErase, onEraseClicked, he]
    split <;> simp_all

/-- Helper: a click on Paint keeps the two tool buttons mutually unchecked. -/
theorem clickPaint_not_both (s : MainState)
    (h : (s.eraseChecked && s.paintChecked) = false) :
    ((clickPaint s).eraseChecked && (clickPaint s).paintChecked) = false := by
  cases hp : s.paintChecked
  · simp [clickPaint, onPaintClicked, hp]
  · simp [clickPaint, onPaintClicked, hp]
    split <;> simp_all

/-- Helper: the mutual-exclusion invariant is preserved along any run of
toolbar clicks. -/
theorem foldl_stepTool_not_both (evs : List ToolClick) (s : MainState)
    (h : (s.eraseChecked && s.paintChecked) = false) :
    (((evs.foldl stepTool s).eraseChecked
        && (evs.foldl stepTool s).paintChecked)) = false := by
  induction evs generalizing s with
  | nil => exact h
  | cons e tl ih =>
      cases e
      · exact ih (clickErase s) (clickErase_not_both s h)
      · exact ih (clickPaint s) (clickPaint_not_both s h)

/-- Helper: clicking Erase while it is unchecked checks it, sets the tool to
erase, and unchecks Paint. -/
theorem clickErase_checks (s : MainState) (h : s.eraseChecked = false) :
    (clickErase s).view.tool = Tool.erase
      ∧ (clickErase s).paintChecked = false
      ∧ (clickErase s).eraseChecked = true := by
  simp [clickErase, onEraseClicked, h, setTool, updateCursor]

/-- Helper: clicking Paint while it is unchecked checks it, sets the tool to
paint, and unchecks Erase. -/
theorem clickPaint_checks (s : MainState) (h : s.paintChecked = false) :
    (clickPaint s).view.tool = Tool.paint
      ∧ (clickPaint s).eraseChecked = false
      ∧ (clickPaint s).paintChecked = true := by
  simp [clickPaint, onPaintClicked, h, setTool, updateCursor]

/-- Helper: clicking Erase while it is checked and Paint is unchecked
unchecks it and resets the tool to none. -/
theorem clickErase_unchecks (s : MainState) (he : s.eraseChecked = true)
    (hp : s.paintChecked = false) :
    (clickErase s).view.tool = Tool.none
      ∧ (clickErase s).eraseChecked = false := by
  simp [clickErase, onEraseClicked, he, hp, setTool]

/-- Helper: clicking Paint while it is checked and Erase is unchecked
unchecks it and resets the tool to none. -/
theorem clickPaint_unchecks (s : MainState) (hp : s.paintChecked = true)
    (he : s.eraseChecked = false) :
    (clickPaint s).view.tool = Tool.none
      ∧ (clickPaint s).paintChecked = false := by
  simp [clickPaint, onPaintClicked, he, hp, setTool]

/-- CLAIM C1 (code bug evidence): a single scroll-wheel notch with tool mode
`"none"` — the program's initial state, no button ever pressed — leaves the
mirror-refresh timer running even though no press-to-release interaction is
open, contradicting the spec's "timer active iff an interaction is open":
`wheelEvent` invokes the interaction-start callback and no wheel release
exists to invoke the end callback. -/
theorem wheel_zoom_leaves_timer_running :
    (runUi [UiEvent.wheel (0, 0) 1]).app.timerActive = true
    ∧ (runUi [UiEvent.wheel (0, 0) 1]).interactionOpen = false :=
  ⟨rfl, rfl⟩

/-- CLAIM C3: loading a decoded image into the Interactive tab yields an
overlay bitmap with exactly the base image's width and height, every overlay
pixel fully opaque black, and the tool mode reset to `"none"`. -/
theorem load_interactive_overlay_fresh (s : MainState) (pm : Pixmap)
    (fitT : Transform) :
    ∃ ov : Bitmap,
      (loadInteractiveImage s pm fitT).view.overlay = some ov
      ∧ ov.width = pm.width ∧ ov.height = pm.height
      ∧ (∀ x y, ov.pix x y = opaqueBlack)
      ∧ (loadInteractiveImage s pm fitT).view.tool = Tool.none :=
  ⟨⟨pm.width, pm.height, fun _ _ => opaqueBlack⟩, rfl, rfl, rfl,
    fun _ _ => rfl, rfl⟩

/-- CLAIM C4: along every sequence of Erase/Paint toggle clicks from startup,
the two buttons are never both checked; checking Erase sets the tool to erase
and unchecks Paint; checking Paint sets the tool to paint and unchecks Erase;
and unchecking either button while the other is unchecked resets the tool
to `"none"`. -/
theorem tool_buttons_mutually_exclusive (evs : List ToolClick) :
    ((runToolClicks evs).eraseChecked && (runToolClicks evs).paintChecked)
      = false
    ∧ ((runToolClicks evs).eraseChecked = false →
        ((clickErase (runToolClicks evs)).view.tool = Tool.erase
          ∧ (clickErase (runToolClicks evs)).paintChecked = false))
    ∧ ((runToolClicks evs).paintChecked = false →
        ((clickPaint (runToolClicks evs)).view.tool = Tool.paint
          ∧ (clickPaint (runToolClicks evs)).eraseChecked = false))
    ∧ ((runToolClicks evs).eraseChecked = true →
        (runToolClicks evs).paintChecked = false →
        (clickErase (runToolClicks evs)).view.tool = Tool.none)
    ∧ ((runToolClicks evs).paintChecked = true →
        (runToolClicks evs).eraseChecked = false →
        (clickPaint (runToolClicks evs)).view.tool = Tool.none) := by
  refine ⟨foldl_stepTool_not_both evs initState rfl, ?_, ?_, ?_, ?_⟩
  · intro h
    exact ⟨(clickErase_checks _ h).1, (clickErase_checks _ h).2.1⟩
  · intro h
    exact ⟨(clickPaint_checks _ h).1, (clickPaint_checks _ h).2.1⟩
  · intro he hp
    exact (clickErase_unchecks _ he hp).1
  · intro hp he
    exact (clickPaint_unchecks _ hp he).1

/-- Witness for C4: after a single Erase click the invariant holds, and the
next Erase click (Paint being unchecked) resets the tool to `"none"`. -/
theorem tool_buttons_mutually_exclusive_witness :
    ((runToolClicks [ToolClick.eraseClick]).eraseChecked
        && (runToolClicks [ToolClick.eraseClick]).paintChecked) = false
    ∧ (clickErase (runToolClicks [ToolClick.eraseClick])).view.tool
        = Tool.none :=
  ⟨(tool_buttons_mutually_exclusive [ToolClick.eraseClick]).1,
   (tool_buttons_mutually_exclusive [ToolClick.eraseClick]).2.2.2.1 rfl rfl⟩

/-- CLAIM C5: a scroll-wheel event with tool mode `"none"` scales the view
transform by exactly `1.2` (notch in) or `1/1.2` (notch out) and translates
it so the scene point that was under the pointer maps back to the pointer's
position (exact over ℚ, the model of float arithmetic); with a brush tool
active the whole event is ignored and the state is unchanged. -/
theorem wheel_zoom_scales_and_anchors (s : MainState) (p : ℚ × ℚ) (dy : Int)
    (h11 : s.view.transform.m11 ≠ 0) (h22 : s.view.transform.m22 ≠ 0) :
    (s.view.tool = Tool.none →
      ((wheelEvent s p dy).view.transform.m11
          = s.view.transform.m11 * (if 0 < dy then (6 / 5 : ℚ) else 5 / 6)
        ∧ (wheelEvent s p dy).view.transform.m22
          = s.view.transform.m22 * (if 0 < dy then (6 / 5 : ℚ) else 5 / 6)
        ∧ applyTransform (wheelEvent s p dy).view.transform
            (mapToScene s.view.transform p) = p))
    ∧ (s.view.tool ≠ Tool.none → wheelEvent s p dy = s) := by
  constructor
  · intro h
    have hcond : ¬ s.view.tool ≠ Tool.none := by simp [h]
    have hz : (if 0 < dy then (6 / 5 : ℚ) else 5 / 6) ≠ 0 := by
      split <;> norm_num
    refine ⟨?_, ?_, ?_⟩
    · simp only [wheelEvent, if_neg hcond, onInteractionStart_view,
        updateMirror_view_transform, scaleTransform, translateTransform]
    · simp only [wheelEvent, if_neg hcond, onInteractionStart_view,
        updateMirror_view_transform, scaleTransform, translateTransform]
    · simp only [wheelEvent, if_neg hcond, onInteractionStart_view,
        updateMirror_view_transform]
      exact wheelZoomTransform_anchor s.view.transform _ p h11 h22 hz
  · intro h
    simp [wheelEvent, h]

/-- Witness for C5: from the freshly started application (identity transform,
tool `"none"`), a notch-in wheel at view point `(3, 4)` multiplies the scale
by `6/5` and keeps the scene point that was under the pointer at `(3, 4)`. -/
theorem wheel_zoom_scales_and_anchors_witness :
    (wheelEvent initState (3, 4) 1).view.transform.m11
      = initState.view.transform.m11 * (if 0 < (1 : Int) then (6 / 5 : ℚ) else 5 / 6)
    ∧ applyTransform (wheelEvent initState (3, 4) 1).view.transform
        (mapToScene initState.view.transform (3, 4)) = (3, 4) :=
  ⟨((wheel_zoom_scales_and_anchors initState (3, 4) 1 (by decide)
      (by decide)).1 rfl).1,
   ((wheel_zoom_scales_and_anchors initState (3, 4) 1 (by decide)
      (by decide)).1 rfl).2.2⟩

/-- Counterexample for C6: with brush radius 20 and both scale components
`1/100`, `update_cursor` produces a glyph of on-screen radius `1` (the
`max(1, int(...))` clamp), while the claimed value, brush radius times the
average scale, is `1/5 ≠ 1`. -/
theorem cursor_radius_claim_counterexample :
    (updateCursor { initView with tool := Tool.erase, brushRadius := 20,
                                  transform := ⟨1 / 100, 1 / 100, 0, 0⟩ }).cursor
      = CursorShape.circle 1
    ∧ (20 : ℚ) * avgScale ⟨1 / 100, 1 / 100, 0, 0⟩ = 1 / 5
    ∧ ((1 : ℚ) ≠ 1 / 5) := by
  have h20 : (20 : ℚ) * avgScale ⟨1 / 100, 1 / 100, 0, 0⟩ = 1 / 5 := by
    norm_num [avgScale]
  have htr : ratTrunc ((20 : ℚ) * avgScale ⟨1 / 100, 1 / 100, 0, 0⟩) = 0 := by
    rw [h20, ratTrunc, if_pos (by norm_num)]
    rw [Int.floor_eq_iff]
    norm_num
  have hsr : screenRadius 20 ⟨1 / 100, 1 / 100, 0, 0⟩ = 1 := by
    unfold screenRadius
    rw [show ((20 : Nat) : ℚ) = (20 : ℚ) by norm_num, htr]
    decide
  refine ⟨?_, h20, by norm_num⟩
  simp only [updateCursor]
  rw [if_pos (Or.inl trivial)]
  exact congrArg CursorShape.circle hsr

/-- CLAIM C6 as amended: while a brush tool is active the cursor glyph's
on-screen radius equals `max(1, int(brushRadius * avgScale))` — the brush
radius times the average of the transform's scale components, truncated to an
integer and clamped below by one pixel; the glyph is recomputed by every
brush-radius change and every mirror update, and a wheel zoom cannot change
the transform while a brush tool is active (the event is ignored). -/
theorem cursor_radius_tracks_zoom_and_radius (v : ViewState) (s : MainState)
    (r : Nat) (p : ℚ × ℚ) (dy : Int)
    (hv : v.tool = Tool.erase ∨ v.tool = Tool.paint)
    (hs : s.view.tool = Tool.erase ∨ s.view.tool = Tool.paint) :
    (updateCursor v).cursor
      = CursorShape.circle (screenRadius v.brushRadius v.transform)
    ∧ (setBrushRadius v r).cursor
      = CursorShape.circle (screenRadius r v.transform)
    ∧ (updateMirror s).view.cursor
      = CursorShape.circle (screenRadius s.view.brushRadius s.view.transform)
    ∧ wheelEvent s p dy = s := by
  refine ⟨?_, ?_, ?_, ?_⟩
  · simp [updateCursor, hv]
  · have hv1 : ({ v with brushRadius := r } : ViewState).tool = Tool.erase
        ∨ ({ v with brushRadius := r } : ViewState).tool = Tool.paint := hv
    simp [setBrushRadius, updateCursor, hv1]
  · simp [updateMirror, syncPreviewTransform, updateCursor, hs]
  · rcases hs with h | h <;> simp [wheelEvent, h]

/-- Witness for C6 (amended): with the erase tool just selected, a slider
change to 5 yields glyph radius `screenRadius 5` of the unchanged transform,
and a wheel notch leaves the state untouched. -/
theorem cursor_radius_tracks_zoom_and_radius_witness :
    (setBrushRadius (setTool initView Tool.erase) 5).cursor
      = CursorShape.circle (screenRadius 5 (setTool initView Tool.erase).transform)
    ∧ wheelEvent { initState with view := setTool initView Tool.erase } (0, 0) 1
      = { initState with view := setTool initView Tool.erase } :=
  ⟨(cursor_radius_tracks_zoom_and_radius (setTool initView Tool.erase)
      { initState with view := setTool initView Tool.erase } 5 (0, 0) 1
      (Or.inl rfl) (Or.inl rfl)).2.1,
   (cursor_radius_tracks_zoom_and_radius (setTool initView Tool.erase)
      { initState with view := setTool initView Tool.erase } 5 (0, 0) 1
      (Or.inl rfl) (Or.inl rfl)).2.2.2⟩

/-- Counterexample for C7: with the erase tool active, loading an image into
the Interactive tab resets the tool mode to `"none"`, so tool mode does not
persist across every image load. -/
theorem tool_mode_not_preserved_by_interactive_load :
    (loadInteractiveImage
        { initState with view := setTool initView Tool.erase,
                         eraseChecked := true }
        ⟨1, 1, fun _ _ => opaqueBlack⟩ idTransform).view.tool = Tool.none
    ∧ ({ initState with view := setTool initView Tool.erase,
                        eraseChecked := true } : MainState).view.tool
      = Tool.erase
    ∧ Tool.none ≠ Tool.erase :=
  ⟨rfl, rfl, by decide⟩

/-- CLAIM C7 as amended: brush radius persists unchanged across every image
load (both tabs), and tool mode persists across static-tab loads, but an
Interactive-tab load resets the tool mode to `"none"`. -/
theorem brush_radius_persists_across_loads (s : MainState) (pm : Pixmap)
    (fitT : Transform) (w h : Nat) :
    (loadInteractiveImage s pm fitT).view.brushRadius = s.view.brushRadius
    ∧ (loadStaticImage s pm w h).view.brushRadius = s.view.brushRadius
    ∧ (loadStaticImage s pm w h).view.tool = s.view.tool
    ∧ (loadInteractiveImage s pm fitT).view.tool = Tool.none :=
  ⟨rfl, rfl, rfl, rfl⟩

/-- CLAIM C8: a cancelled file dialog (empty path) or a failed decode (null
pixmap) aborts `on_open_image` with the entire program state unchanged. -/
theorem open_image_abort_preserves_state (s : MainState) (path : String)
    (decode : String → Option Pixmap) (fitT : Transform) (w h : Nat)
    (habort : path = "" ∨ decode path = Option.none) :
    onOpenImage s path decode fitT w h = s := by
  rcases habort with h | h
  · simp [onOpenImage, h]
  · unfold onOpenImage
    split
    · rfl
    · rw [h]

/-- Witness for C8: cancelling the dialog in the freshly started application
changes nothing. -/
theorem open_image_abort_preserves_state_witness :
    onOpenImage initState "" (fun _ => Option.none) idTransform 0 0
      = initState :=
  open_image_abort_preserves_state initState "" (fun _ => Option.none)
    idTransform 0 0 (Or.inl rfl)

/-- CLAIM C9: while the main window is attached and visible both mirror
windows ignore close requests, and after the main window's `closeEvent`
detaches them both accept close requests (whatever the main window's
visibility then is). -/
theorem mirror_windows_close_policy (s : MainState) (vis : Bool) :
    (s.mirrorAttached = true → s.mainVisible = true →
      mirrorWindowCloseAccepted s.mirrorAttached s.mainVisible = false)
    ∧ (s.staticMirrorAttached = true → s.mainVisible = true →
      staticMirrorWindowCloseAccepted s.staticMirrorAttached s.mainVisible
        = false)
    ∧ mirrorWindowCloseAccepted (mainCloseEvent s).mirrorAttached vis = true
    ∧ staticMirrorWindowCloseAccepted (mainCloseEvent s).staticMirrorAttached
        vis = true := by
  refine ⟨?_, ?_, rfl, rfl⟩ <;> intro h1 h2 <;>
    simp [mirrorWindowCloseAccepted, staticMirrorWindowCloseAccepted, h1, h2]

/-- Witness for C9: at startup (mirrors attached, main visible) the mirror
ignores a close request; after the main window closes it accepts one. -/
theorem mirror_windows_close_policy_witness :
    mirrorWindowCloseAccepted initState.mirrorAttached initState.mainVisible
      = false
    ∧ mirrorWindowCloseAccepted (mainCloseEvent initState).mirrorAttached true
      = true :=
  ⟨(mirror_windows_close_policy initState true).1 rfl rfl,
   (mirror_windows_close_policy initState true).2.2.1⟩

/-- CLAIM C10: a brush application before any image has been loaded (no
overlay set) is a total no-op: `apply_brush` returns with the whole state
unchanged. -/
theorem apply_brush_noop_without_overlay (s : MainState) (pos : ℚ × ℚ)
    (h : s.view.overlay = Option.none) : applyBrush s pos = s := by
  simp [applyBrush, h]

/-- Witness for C10: a brush application in the freshly started application
(no overlay) changes nothing. -/
theorem apply_brush_noop_without_overlay_witness :
    applyBrush initState (0, 0) = initState :=
  apply_brush_noop_without_overlay initState (0, 0) rfl

end MirrorTool
